import Mathlib

/-!
Verification development for the JobSearch ingestion-and-persistence
pipeline.  The definitions below are a shallow embedding of the Python
sources `job_fetch.py`, `job_manager.py`, `resume_match.py` and
`main.py`: pure computations become Lean functions, external effects
(HTTP responses, the inference backend, `json.loads`) become explicit
oracle parameters, and the observable filesystem states of the store
update become an explicit trace.  Field names and function names follow
the source wherever Lean allows it.
-/

/-! ## Python string primitives used by the sources -/

/-- Python `str(x)` applied to an optional string: `str(None) = "None"`,
as in the f-string building `job_id` in `job_fetch.py`. -/
def py_str_opt : Option String → String
  | none => "None"
  | some s => s

/-- Auxiliary: does the first list start with the second list. -/
def starts_with : List Char → List Char → Bool
  | _, [] => true
  | [], _ :: _ => false
  | c :: cs, d :: ds => c = d && starts_with cs ds

/-- Auxiliary: does the second list occur as a contiguous run of the
first list. -/
def contains_sub (needle : List Char) : List Char → Bool
  | [] => starts_with [] needle
  | l@(_ :: t) => starts_with l needle || contains_sub needle t

/-- Python `needle in hay` on strings (substring test), used by the
checks `"429" in error_str` in `resume_match.py` and `main.py`. -/
def py_in_str (needle hay : String) : Bool :=
  contains_sub needle.toList hay.toList

/-- Python `s.find(c)`: index of the first occurrence of `c`, `-1` if
absent. -/
def py_find (s : String) (c : Char) : Int :=
  match s.toList.findIdx? (fun d => d = c) with
  | some i => (i : Int)
  | none => -1

/-- Python `s.rfind(c)`: index of the last occurrence of `c`, `-1` if
absent. -/
def py_rfind (s : String) (c : Char) : Int :=
  match s.toList.reverse.findIdx? (fun d => d = c) with
  | some i => ((s.toList.length - 1 - i : Nat) : Int)
  | none => -1

/-- Python `s[a:b]` for `0 ≤ a, b` (clamping as in Python for the
in-range uses made by the source). -/
def py_slice (s : String) (a b : Nat) : String :=
  String.mk ((s.toList.drop a).take (b - a))

/-! ## Data model

`RawJob` is one element of the `results` array of the listing API
(§6 of the spec); every field may be absent (`job.get(...)` returns
`None`).  `JobRecord` is the dictionary built from it in
`AdzunaJobFetcher.fetch_jobs`.  Salaries are modelled as integers
(their numeric value plays no role in any claim). -/

structure RawJob where
  company : Option String
  title : Option String
  location : Option String
  description : Option String
  salary_min : Option Int
  salary_max : Option Int
  redirect_url : Option String
  created : Option String
deriving DecidableEq

structure JobRecord where
  job_id : String
  title : Option String
  company : Option String
  location : Option String
  description : Option String
  salary_min : Option Int
  salary_max : Option Int
  url : Option String
  created : Option String
  source : String
  fetched_at : String
deriving DecidableEq

/-- The record-building step of `AdzunaJobFetcher.fetch_jobs`: the
identity key is the f-string
`f"{company}_{title}_{location}"`, where an absent field prints as
`None`; `now` is the `datetime.now(timezone.utc).isoformat()` value. -/
def to_job_record (now : String) (job : RawJob) : JobRecord :=
  { job_id := py_str_opt job.company ++ "_" ++ py_str_opt job.title ++ "_"
      ++ py_str_opt job.location
    title := job.title
    company := job.company
    location := job.location
    description := job.description
    salary_min := job.salary_min
    salary_max := job.salary_max
    url := job.redirect_url
    created := job.created
    source := "Adzuna"
    fetched_at := now }

/-! ## JobManager (`job_manager.py`)

The store file is modelled by its list of rows (the absent file is the
empty list; reads are modelled as succeeding).  `save_new_jobs` is the
functional result of a completed, failure-free run. -/

namespace JobManager

/-- The `job_id` column of a store or batch. -/
def job_ids_of (rs : List JobRecord) : List String :=
  rs.map JobRecord.job_id

/-- `JobManager.get_existing_job_ids`: the identity column of the
current store (used only through membership, so the Python `set` is
modelled by the list of ids). -/
def get_existing_job_ids (store : List JobRecord) : List String :=
  job_ids_of store

/-- `JobManager.save_new_jobs`: filter the batch to records whose
`job_id` is not already in the store, and append the survivors (the
code returns early, writing nothing, when the filtered list is
empty). -/
def save_new_jobs (store jobs : List JobRecord) : List JobRecord :=
  let existing_ids := get_existing_job_ids store
  let new_jobs := jobs.filter (fun job => decide (job.job_id ∉ existing_ids))
  if new_jobs.isEmpty then store else store ++ new_jobs

/-- A sequence of batches merged into an initially absent store. -/
def merge_batches (batches : List (List JobRecord)) : List JobRecord :=
  batches.foldl save_new_jobs []

/-- Observable filesystem state during `save_new_jobs`: the store file
and the temporary file, each either absent or holding a complete list
of rows. -/
structure FsState where
  store : Option (List JobRecord)
  temp : Option (List JobRecord)
deriving DecidableEq

/-- The sequence of observable filesystem states of one `save_new_jobs`
run that completes without error, in program order: initial state;
after `combined_df.to_csv(temp_path)`; after `os.remove(csv_path)`
(performed only when the store file exists); after
`os.rename(temp_path, csv_path)`.  When the filtered batch is empty the
code returns before touching the filesystem. -/
def save_new_jobs_trace (store0 : Option (List JobRecord))
    (jobs : List JobRecord) : List FsState :=
  let existing_ids := get_existing_job_ids (store0.getD [])
  let new_jobs := jobs.filter (fun job => decide (job.job_id ∉ existing_ids))
  if new_jobs.isEmpty then [⟨store0, none⟩]
  else
    let combined := store0.getD [] ++ new_jobs
    [⟨store0, none⟩, ⟨store0, some combined⟩]
      ++ (if store0.isSome then [⟨none, some combined⟩] else [])
      ++ [⟨some combined, none⟩]

/-- The `except` handler of `save_new_jobs`: remove the temporary file
if it exists, touch nothing else. -/
def save_error_cleanup (s : FsState) : FsState :=
  { s with temp := none }

end JobManager

/-! ## AdzunaJobFetcher (`job_fetch.py`) -/

namespace AdzunaJobFetcher

def max_retries : Nat := 3

/-- Outcome of one `requests.get` call: a response with a status code
and a parsed body, or a raised transport error
(`requests.exceptions.RequestException`). -/
inductive HttpOutcome (α : Type) where
  | response (status : Nat) (body : α)
  | net_error
deriving DecidableEq

/-- How `_make_api_request` can fail: `raise_for_status` propagated on
the final attempt (`requests.exceptions.HTTPError` is a subclass of
`RequestException`, so it is caught and re-raised only when no attempts
remain); a transport error propagated on the final attempt; or the
closing `raise Exception("Max retries exceeded")`. -/
inductive ReqError where
  | http_error (status : Nat)
  | net_error
  | max_retries_exceeded
deriving DecidableEq

/-- The attempt loop of `AdzunaJobFetcher._make_api_request`, the
response to each attempt supplied by the oracle `oracle`.  The Python
loop `for attempt in range(self.max_retries)` is embedded with
`remaining` iterations left to run alongside the running `attempt`
index (the loop runs with `remaining = max_retries - attempt`); when
the iterations are exhausted the closing
`raise Exception("Max retries exceeded")` fires.  A 429 status sleeps
and continues to the next attempt; `response.raise_for_status()`
raises for statuses in `[400, 600)`, and that exception is caught by
the `except RequestException` clause, which retries when
`attempt < max_retries - 1` and re-raises on the last attempt; the
same clause handles transport errors.  Sleeps are not part of the
returned value. -/
def make_api_request_go {α : Type} (oracle : Nat → HttpOutcome α) :
    Nat → Nat → Except ReqError α
  | _, 0 => .error .max_retries_exceeded
  | attempt, remaining + 1 =>
    match oracle attempt with
    | .response status body =>
      if status = 429 then
        make_api_request_go oracle (attempt + 1) remaining
      else if 400 ≤ status ∧ status < 600 then
        if attempt < max_retries - 1 then
          make_api_request_go oracle (attempt + 1) remaining
        else
          .error (.http_error status)
      else
        .ok body
    | .net_error =>
      if attempt < max_retries - 1 then
        make_api_request_go oracle (attempt + 1) remaining
      else
        .error .net_error

/-- `AdzunaJobFetcher._make_api_request`, starting at attempt 0 with
all `max_retries` loop iterations ahead. -/
def make_api_request {α : Type} (oracle : Nat → HttpOutcome α) :
    Except ReqError α :=
  make_api_request_go oracle 0 max_retries

/-- Outcome of requesting one page inside `fetch_jobs`: the `results`
array of the parsed body, or any exception escaping
`_make_api_request` (caught by the inner `except`, which breaks out of
the page loop). -/
inductive PageResult where
  | ok (results : List RawJob)
  | err
deriving DecidableEq

/-- The page loop of `AdzunaJobFetcher.fetch_jobs`.  The oracle list
holds the outcome of each page request in order; an exhausted list
behaves as a page with no results (the provider is out of data).  An
empty `results` array breaks; otherwise every item of the page is
appended as a record, then the loop breaks when a nonzero
`max_results` has been reached (Python truthiness: `if max_results`),
else continues with the next page. -/
def fetch_loop (now : String) (max_results : Nat) :
    List PageResult → List JobRecord → List JobRecord
  | [], acc => acc
  | .err :: _, acc => acc
  | .ok results :: rest, acc =>
    if results.isEmpty then acc
    else
      let acc2 := acc ++ results.map (to_job_record now)
      if max_results ≠ 0 ∧ max_results ≤ acc2.length then acc2
      else fetch_loop now max_results rest acc2

/-- `AdzunaJobFetcher.fetch_jobs`: run the page loop from page 1 with
no accumulated records, then return
`all_jobs[:max_results] if max_results else all_jobs`. -/
def fetch_jobs (now : String) (max_results : Nat)
    (pages : List PageResult) : List JobRecord :=
  let all_jobs := fetch_loop now max_results pages []
  if max_results ≠ 0 then all_jobs.take max_results else all_jobs

/-- Number of records the source makes available to the loop: items of
the successful nonempty pages before the first empty page or failed
request. -/
def available_results : List PageResult → Nat
  | [] => 0
  | .err :: _ => 0
  | .ok results :: rest =>
    if results.isEmpty then 0
    else results.length + available_results rest

end AdzunaJobFetcher

/-! ## ResumeMatchEngine (`resume_match.py`) -/

/-- A Python value as produced by `json.loads`: number, string,
boolean, `None`, list or dict (numbers modelled as integers; their
value plays no role in any claim). -/
inductive PyVal where
  | num (n : Int)
  | str (s : String)
  | boolean (b : Bool)
  | null
  | arr (xs : List PyVal)
  | obj (fields : List (String × PyVal))

namespace ResumeMatchEngine

def max_retries : Nat := 5

def base_delay : Nat := 2

/-- The delay computed by `_exponential_backoff` before jitter:
`min(300, base_delay * (2 ** retry_count))`. -/
def backoff_delay (retry_count : Nat) : Nat :=
  min 300 (base_delay * 2 ^ retry_count)

/-- Upper bound of the jitter drawn by `_exponential_backoff`:
`random.uniform(0, 0.1 * delay)` draws from `[0, delay / 10]`. -/
def backoff_jitter_max (retry_count : Nat) : ℚ :=
  (backoff_delay retry_count : ℚ) / 10

/-- `_exponential_backoff` with the drawn jitter made explicit:
`delay + jitter`. -/
def exponential_backoff (retry_count : Nat) (jitter : ℚ) : ℚ :=
  (backoff_delay retry_count : ℚ) + jitter

def required_fields : List String :=
  ["score", "matching_skills", "missing_skills"]

/-- The zero-score dictionary returned on every failure path of
`match_job_to_resume`. -/
def zero_result (err : String) : PyVal :=
  .obj [("score", .num 0), ("matching_skills", .arr []),
    ("missing_skills", .arr []), ("error", .str err)]

/-- Python `field in v`: key membership for a dict, element equality
for a list, substring for a string; any other value raises
`TypeError` (modelled as the error case). -/
def py_in (field : String) : PyVal → Except Unit Bool
  | .obj kvs => .ok (kvs.any (fun kv => kv.fst == field))
  | .arr xs =>
    .ok (xs.any (fun x => match x with | .str s => s == field | _ => false))
  | .str s => .ok (py_in_str field s)
  | _ => .error ()

/-- `all(field in result for field in required_fields)`: short-circuits
on the first absent field, propagates a `TypeError` raised by the
membership test. -/
def all_fields_in : List String → PyVal → Except Unit Bool
  | [], _ => .ok true
  | f :: rest, v =>
    match py_in f v with
    | .error e => .error e
    | .ok true => all_fields_in rest v
    | .ok false => .ok false

/-- Outcome of one `self.model.generate_content(prompt)` call: the
response text, or a raised exception carrying `str(e)`. -/
inductive GenOutcome where
  | text (t : String)
  | raise (e : String)

/-- The response-cleaning block of `match_job_to_resume` (the inner
`try`).  `loads` is the oracle for `json.loads` (`none` models
`json.JSONDecodeError`, the only exception the inner `except`
catches).  The two `ValueError`s raised inside the block, and a
`TypeError` from a membership test on a non-container parse result, are
not `json.JSONDecodeError` and therefore propagate to the outer handler
(the error case, carrying `str(e)`; the `TypeError` message is
abridged). -/
def clean_response (loads : String → Option PyVal) (text : String) :
    Except String PyVal :=
  let start := py_find text '{'
  let stop := py_rfind text '}' + 1
  if start ≠ -1 ∧ stop ≠ 0 then
    let json_str := py_slice text start.toNat stop.toNat
    match loads json_str with
    | none => .ok (zero_result "Failed to parse LLM response")
    | some result =>
      match all_fields_in required_fields result with
      | .error _ => .error "argument of type is not iterable"
      | .ok true => .ok result
      | .ok false => .error "Missing required fields in response"
  else
    .error "No JSON object found in response"

/-- The retry loop `while retry_count < self.max_retries` of
`ResumeMatchEngine.match_job_to_resume`, embedded with `remaining`
iterations left to run alongside the running `retry_count` (the loop
runs with `remaining = max_retries - retry_count`); when the loop
condition fails the code after the loop returns the
`"Max retries reached"` dictionary (unreachable from
`retry_count = 0`, but part of the source).  `gen` gives the outcome
of the backend call at each value of `retry_count`.  An exception
whose text contains `"429"` sleeps the backoff and retries while
`retry_count < max_retries - 1`; otherwise (and for a `"429"`
exception on the last attempt) the exception text is wrapped into a
zero-score dictionary and returned. -/
def match_go (loads : String → Option PyVal) (gen : Nat → GenOutcome) :
    Nat → Nat → PyVal
  | _, 0 => zero_result "Max retries reached"
  | retry_count, remaining + 1 =>
    match gen retry_count with
    | .text t =>
      match clean_response loads t with
      | .ok r => r
      | .error e =>
        if py_in_str "429" e then
          if retry_count < max_retries - 1 then
            match_go loads gen (retry_count + 1) remaining
          else zero_result e
        else zero_result e
    | .raise e =>
      if py_in_str "429" e then
        if retry_count < max_retries - 1 then
          match_go loads gen (retry_count + 1) remaining
        else zero_result e
      else zero_result e

/-- `ResumeMatchEngine.match_job_to_resume`, starting at
`retry_count = 0` with all `max_retries` loop iterations ahead. -/
def match_job_to_resume (loads : String → Option PyVal)
    (gen : Nat → GenOutcome) : PyVal :=
  match_go loads gen 0 max_retries

end ResumeMatchEngine

/-! ## JobSearchPipeline (`main.py`)

The scoring stage of `run_pipeline` is modelled by the sequence of
scoring calls and sleeps it performs, one block per job of the batch. -/

namespace JobSearchPipeline

/-- Outcome of `self.resume_matcher.match_job_to_resume(...)` for job
`j`: a returned dictionary, or a raised exception carrying
`str(e)`. -/
inductive ScoreOutcome where
  | ok
  | raise (e : String)

/-- An observable event of the scoring stage: the scoring call for job
`j`, the `time.sleep(1)` after a normal return, the `time.sleep(60)`
of the rate-limit path, or the single retried scoring call. -/
inductive PipelineEvent where
  | score (j : Nat)
  | sleep_one
  | sleep_sixty
  | score_retry (j : Nat)
deriving DecidableEq

/-- The events of one loop iteration of the scoring stage: a normal
return is followed by `time.sleep(1)`; a raised exception skips that
sleep, and when its text contains `"429"` the code sleeps 60 seconds
and retries the call exactly once (the retry outcome adds no further
event: both a second return and a second exception fall through to the
next job). -/
def score_block (outcome : Nat → ScoreOutcome) (j : Nat) :
    List PipelineEvent :=
  match outcome j with
  | .ok => [.score j, .sleep_one]
  | .raise e =>
    .score j ::
      (if py_in_str "429" e then [.sleep_sixty, .score_retry j] else [])

/-- The event sequence of the scoring stage over jobs `0, …, n-1` in
order. -/
def scoring_trace (outcome : Nat → ScoreOutcome) : Nat → List PipelineEvent
  | 0 => []
  | n + 1 => scoring_trace outcome n ++ score_block outcome n

end JobSearchPipeline

/-! ## Concrete records used by witnesses and counterexamples -/

/-- A raw API item whose `company.display_name`, `title` and
`location.display_name` are all absent. -/
def raw_all_none : RawJob :=
  ⟨none, none, none, none, none, none, none, none⟩

def rec_acme : JobRecord :=
  { job_id := "Acme_Dev_NYC", title := some "Dev", company := some "Acme",
    location := some "NYC", description := none, salary_min := none,
    salary_max := none, url := none, created := none, source := "Adzuna",
    fetched_at := "t1" }

/-- The same posting fetched again later: identical identity key,
fresher `fetched_at`. -/
def rec_acme_later : JobRecord :=
  { rec_acme with fetched_at := "t2" }

def rec_beta : JobRecord :=
  { rec_acme with
    job_id := "Beta_QA_SF", title := some "QA",
    company := some "Beta", location := some "SF" }

/-! ## Helper lemmas -/

namespace JobManager

/-- One merge step preserves uniqueness of the identity column when the
incoming batch is internally duplicate-free. -/
theorem save_new_jobs_ids_nodup (store jobs : List JobRecord)
    (hs : (job_ids_of store).Nodup) (hb : (job_ids_of jobs).Nodup) :
    (job_ids_of (save_new_jobs store jobs)).Nodup := by
  simp only [save_new_jobs, get_existing_job_ids]
  split
  · exact hs
  · simp only [job_ids_of, List.map_append, List.nodup_append]
    refine ⟨hs, ?_, ?_⟩
    · exact List.Nodup.sublist ((List.filter_sublist jobs).map JobRecord.job_id) hb
    · intro a ha hmem
      rw [List.mem_map] at hmem
      obtain ⟨r, hr, rfl⟩ := hmem
      rw [List.mem_filter] at hr
      have hnot : r.job_id ∉ job_ids_of store := by simpa [job_ids_of] using hr.2
      exact hnot ha

/-- Folding a sequence of internally duplicate-free batches into a
store with a unique identity column keeps that column unique. -/
theorem foldl_save_new_jobs_ids_nodup (batches : List (List JobRecord)) :
    ∀ store, (job_ids_of store).Nodup →
      (∀ b ∈ batches, (job_ids_of b).Nodup) →
      (job_ids_of (batches.foldl save_new_jobs store)).Nodup := by
  induction batches with
  | nil => intro store hs _; simpa using hs
  | cons b bs ih =>
    intro store hs hball
    rw [List.foldl_cons]
    exact ih _ (save_new_jobs_ids_nodup store b hs (hball b (by simp)))
      (fun x hx => hball x (by simp [hx]))

end JobManager

/-! ## Claims -/

open JobManager AdzunaJobFetcher ResumeMatchEngine JobSearchPipeline

/-- C1, counterexample.  A single batch holding two records with the
same identity key (the same posting fetched twice within one run)
passes the duplicate filter of `save_new_jobs` in both copies, because
the filter checks only against the identities already in the store:
the resulting store carries a duplicated identity key, refuting the
claim for batches that internally contain two records with the same
`job_id`. -/
theorem merge_batches_in_batch_dup_cx :
    ¬ (job_ids_of (merge_batches [[rec_acme, rec_acme_later]])).Nodup := by
  decide

/-- C1, amended.  For every sequence of batches each of which is
internally free of duplicate identity keys, merging them sequentially
through `save_new_jobs` leaves no two records in the resulting store
sharing an identity key.  (The unamended claim fails only when one
batch itself carries two records with the same `job_id`.) -/
theorem merge_batches_unique_ids (batches : List (List JobRecord))
    (hb : ∀ b ∈ batches, (job_ids_of b).Nodup) :
    (job_ids_of (merge_batches batches)).Nodup :=
  foldl_save_new_jobs_ids_nodup batches [] (by simp [job_ids_of]) hb

/-- C1 witness: two successive batches carrying the same posting; the
second copy is discarded and the store stays duplicate-free. -/
theorem merge_batches_unique_ids_witness :
    (∀ b ∈ [[rec_acme], [rec_acme_later]], (job_ids_of b).Nodup) ∧
    (job_ids_of (merge_batches [[rec_acme], [rec_acme_later]])).Nodup :=
  ⟨by decide, merge_batches_unique_ids [[rec_acme], [rec_acme_later]] (by decide)⟩

/-- C2, counterexample.  `save_new_jobs` removes the old store file
before renaming the temporary file into place, so the run passes
through an observable instant at which the store file is absent —
neither the complete pre-merge file nor the complete post-merge
file. -/
theorem save_new_jobs_trace_not_atomic_cx :
    ¬ (∀ s ∈ save_new_jobs_trace (some [rec_acme]) [rec_beta],
        s.store = some [rec_acme] ∨
        s.store = some (save_new_jobs [rec_acme] [rec_beta])) := by
  decide

/-- C2, amended.  For a run of `save_new_jobs` over an existing store
with a nonempty filtered batch, the observable filesystem states are
exactly: initial; temporary file written (store still pre-merge);
old store removed (store absent, the complete post-merge content held
by the temporary file); temporary file renamed into place (store
post-merge).  Interruption between the temporary write and the
`os.remove` leaves the pre-merge store; interruption between the
`os.remove` and the rename leaves the store file absent, never
truncated.  On a failure during combine/write the handler removes the
temporary file and the store is unchanged. -/
theorem save_new_jobs_trace_states (s0 jobs combined : List JobRecord)
    (hne : jobs.filter
      (fun job => decide (job.job_id ∉ get_existing_job_ids s0)) ≠ [])
    (hc : combined = s0 ++ jobs.filter
      (fun job => decide (job.job_id ∉ get_existing_job_ids s0))) :
    save_new_jobs_trace (some s0) jobs =
      [⟨some s0, none⟩, ⟨some s0, some combined⟩,
       ⟨none, some combined⟩, ⟨some combined, none⟩] ∧
    save_new_jobs s0 jobs = combined ∧
    (∀ t, save_error_cleanup ⟨some s0, t⟩ = ⟨some s0, none⟩) := by
  subst hc
  have hfalse : (jobs.filter
      (fun job => decide (job.job_id ∉ get_existing_job_ids s0))).isEmpty
      = false := by
    rw [← Bool.not_eq_true, List.isEmpty_iff]; exact hne
  refine ⟨?_, ?_, fun t => rfl⟩
  · simp only [save_new_jobs_trace, Option.getD_some, Option.isSome_some, hfalse]
    rfl
  · simp only [save_new_jobs, hfalse]
    rfl

/-- C2 witness: merging one genuinely new record into a one-record
store walks through the four states above. -/
theorem save_new_jobs_trace_states_witness :
    ([rec_beta].filter
      (fun job => decide (job.job_id ∉ get_existing_job_ids [rec_acme])) ≠ [] ∧
     [rec_acme, rec_beta] = [rec_acme] ++ [rec_beta].filter
      (fun job => decide (job.job_id ∉ get_existing_job_ids [rec_acme]))) ∧
    (save_new_jobs_trace (some [rec_acme]) [rec_beta] =
      [⟨some [rec_acme], none⟩, ⟨some [rec_acme], some [rec_acme, rec_beta]⟩,
       ⟨none, some [rec_acme, rec_beta]⟩, ⟨some [rec_acme, rec_beta], none⟩] ∧
     save_new_jobs [rec_acme] [rec_beta] = [rec_acme, rec_beta] ∧
     (∀ t, save_error_cleanup ⟨some [rec_acme], t⟩ = ⟨some [rec_acme], none⟩)) :=
  ⟨⟨by decide, by decide⟩,
    save_new_jobs_trace_states [rec_acme] [rec_beta] [rec_acme, rec_beta]
      (by decide) (by decide)⟩

/-- C10, counterexample.  Two raw items with all three identity fields
absent, fetched in the same run, form one batch whose two records both
carry the identity `"None_None_None"`; `save_new_jobs` persists both,
refuting the consequence that at most one such record can ever be
persisted with every later one discarded. -/
theorem all_none_identity_cx :
    (to_job_record "t1" raw_all_none).job_id = "None_None_None" ∧
    ¬ ((save_new_jobs []
        [to_job_record "t1" raw_all_none, to_job_record "t2" raw_all_none]).countP
        (fun r => r.job_id == "None_None_None") ≤ 1) := by
  decide

/-- C10, amended.  Every raw item whose `company.display_name`,
`title` and `location.display_name` are all absent gets the literal
identity key `"None_None_None"`, so all such items from all fetches
share one identity; once the store holds a record with that identity,
no later batch adds another (its copies are silently discarded) — but
a single batch may persist several at once. -/
theorem all_none_identity (now : String) (j : RawJob)
    (hco : j.company = none) (ht : j.title = none) (hl : j.location = none)
    (store batch : List JobRecord)
    (hs : "None_None_None" ∈ job_ids_of store) :
    (to_job_record now j).job_id = "None_None_None" ∧
    (job_ids_of (save_new_jobs store batch)).count "None_None_None"
      = (job_ids_of store).count "None_None_None" := by
  simp only [job_ids_of] at hs
  constructor
  · show py_str_opt j.company ++ "_" ++ py_str_opt j.title ++ "_"
        ++ py_str_opt j.location = "None_None_None"
    rw [hco, ht, hl]
    rfl
  · simp only [save_new_jobs, get_existing_job_ids, job_ids_of]
    split
    · rfl
    · simp only [List.map_append, List.count_append]
      have hzero : ("None_None_None" : String) ∉
          (batch.filter
            (fun job => decide (job.job_id ∉ store.map JobRecord.job_id))).map
            JobRecord.job_id := by
        intro hmem
        rw [List.mem_map] at hmem
        obtain ⟨r, hr, hid⟩ := hmem
        rw [List.mem_filter] at hr
        have hnot : r.job_id ∉ store.map JobRecord.job_id := by simpa using hr.2
        exact hnot (hid ▸ hs)
      rw [List.count_eq_zero.mpr hzero]
      rfl

/-- C10 witness: a store already holding the all-absent identity, and a
later batch carrying it again; the count of that identity in the store
does not grow. -/
theorem all_none_identity_witness :
    (raw_all_none.company = none ∧ raw_all_none.title = none ∧
     raw_all_none.location = none ∧
     "None_None_None" ∈ job_ids_of [to_job_record "t1" raw_all_none]) ∧
    ((to_job_record "t2" raw_all_none).job_id = "None_None_None" ∧
     (job_ids_of (save_new_jobs [to_job_record "t1" raw_all_none]
        [to_job_record "t2" raw_all_none])).count "None_None_None"
       = (job_ids_of [to_job_record "t1" raw_all_none]).count "None_None_None") :=
  ⟨⟨rfl, rfl, rfl, by decide⟩,
    all_none_identity "t2" raw_all_none rfl rfl rfl
      [to_job_record "t1" raw_all_none] [to_job_record "t2" raw_all_none]
      (by decide)⟩

/-- C3, counterexample.  A response with status 500 on the first
attempt does not fail immediately: `raise_for_status` raises
`requests.exceptions.HTTPError`, a subclass of `RequestException`, so
the `except` clause catches it and retries; with a 200 on the second
attempt the call succeeds, where the claim requires it to propagate
the 500 error with no further attempts. -/
theorem make_api_request_http_error_retry_cx :
    make_api_request (fun n => if n = 0 then HttpOutcome.response 500 ()
      else HttpOutcome.response 200 ()) = .ok () ∧
    make_api_request (fun n => if n = 0 then HttpOutcome.response 500 ()
      else HttpOutcome.response 200 ()) ≠ .error (.http_error 500) :=
  ⟨rfl, fun h => Except.noConfusion h⟩

/-- C3, amended.  Every failure outcome is retried while attempts
remain, all within the fixed maximum of `max_retries = 3` attempts:
an HTTP error status in `[400, 600)` — 429 or not — and a transport
error each consume one attempt and retry when
`attempt < max_retries - 1` (a 429 retries even on the last attempt,
running the loop out); on the last attempt a non-429 HTTP error
propagates as `HTTPError` and a transport error propagates as raised;
when the loop exhausts its iterations the call fails with
`Exception("Max retries exceeded")`; a non-error status returns the
body. -/
theorem make_api_request_retry_policy {α : Type} :
    (∀ (oracle : Nat → HttpOutcome α) (attempt remaining s : Nat) (b : α),
      oracle attempt = .response s b → 400 ≤ s → s < 600 →
      attempt < AdzunaJobFetcher.max_retries - 1 →
      make_api_request_go oracle attempt (remaining + 1)
        = make_api_request_go oracle (attempt + 1) remaining) ∧
    (∀ (oracle : Nat → HttpOutcome α) (attempt remaining : Nat) (b : α),
      oracle attempt = .response 429 b →
      make_api_request_go oracle attempt (remaining + 1)
        = make_api_request_go oracle (attempt + 1) remaining) ∧
    (∀ (oracle : Nat → HttpOutcome α) (attempt remaining : Nat),
      oracle attempt = .net_error →
      attempt < AdzunaJobFetcher.max_retries - 1 →
      make_api_request_go oracle attempt (remaining + 1)
        = make_api_request_go oracle (attempt + 1) remaining) ∧
    (∀ (oracle : Nat → HttpOutcome α) (attempt remaining s : Nat) (b : α),
      oracle attempt = .response s b → 400 ≤ s → s < 600 → s ≠ 429 →
      ¬ attempt < AdzunaJobFetcher.max_retries - 1 →
      make_api_request_go oracle attempt (remaining + 1)
        = .error (.http_error s)) ∧
    (∀ (oracle : Nat → HttpOutcome α) (attempt remaining : Nat),
      oracle attempt = .net_error →
      ¬ attempt < AdzunaJobFetcher.max_retries - 1 →
      make_api_request_go oracle attempt (remaining + 1) = .error .net_error) ∧
    (∀ (oracle : Nat → HttpOutcome α) (attempt : Nat),
      make_api_request_go oracle attempt 0 = .error .max_retries_exceeded) ∧
    (∀ (oracle : Nat → HttpOutcome α) (attempt remaining s : Nat) (b : α),
      oracle attempt = .response s b → s < 400 →
      make_api_request_go oracle attempt (remaining + 1) = .ok b) ∧
    (∀ oracle : Nat → HttpOutcome α,
      make_api_request oracle
        = make_api_request_go oracle 0 AdzunaJobFetcher.max_retries) := by
  refine ⟨?_, ?_, ?_, ?_, ?_, fun _ _ => rfl, ?_, fun _ => rfl⟩
  · intro oracle attempt remaining s b h h4 h6 hlt
    simp only [make_api_request_go, h]
    by_cases h429 : s = 429
    · simp [h429]
    · rw [if_neg h429, if_pos ⟨h4, h6⟩, if_pos hlt]
  · intro oracle attempt remaining b h
    simp only [make_api_request_go, h]
    rw [if_pos trivial]
  · intro oracle attempt remaining h hlt
    simp only [make_api_request_go, h]
    rw [if_pos hlt]
  · intro oracle attempt remaining s b h h4 h6 h429 hge
    simp only [make_api_request_go, h]
    rw [if_neg h429, if_pos ⟨h4, h6⟩, if_neg hge]
  · intro oracle attempt remaining h hge
    simp only [make_api_request_go, h]
    rw [if_neg hge]
  · intro oracle attempt remaining s b h hs
    simp only [make_api_request_go, h]
    rw [if_neg (by omega : ¬ s = 429), if_neg (by omega : ¬ (400 ≤ s ∧ s < 600))]

/-- C3 witness: a 500 on attempt 0 retries as attempt 1. -/
theorem make_api_request_retry_policy_witness :
    ((fun n => if n = 0 then HttpOutcome.response 500 ()
        else HttpOutcome.response 200 ()) 0 = HttpOutcome.response 500 () ∧
      400 ≤ 500 ∧ 500 < 600 ∧ 0 < AdzunaJobFetcher.max_retries - 1) ∧
    make_api_request_go (fun n => if n = 0 then HttpOutcome.response 500 ()
        else HttpOutcome.response 200 ()) 0 (2 + 1)
      = make_api_request_go (fun n => if n = 0 then HttpOutcome.response 500 ()
        else HttpOutcome.response 200 ()) 1 2 :=
  ⟨⟨rfl, by decide, by decide, by decide⟩,
    (make_api_request_retry_policy (α := Unit)).1 _ 0 2 500 () rfl
      (by decide) (by decide) (by decide)⟩

/-- Helper for C6: the page loop, entered with fewer accumulated
records than a positive cap, yields (after capping with `min`) exactly
the accumulated records plus what the source makes available. -/
theorem fetch_loop_length (now : String) (maxr : Nat) (hmaxr : 0 < maxr) :
    ∀ (pages : List PageResult) (acc : List JobRecord), acc.length < maxr →
      min maxr (fetch_loop now maxr pages acc).length
        = min maxr (acc.length + available_results pages) := by
  intro pages
  induction pages with
  | nil => intro acc _; simp [fetch_loop, available_results]
  | cons p rest ih =>
    intro acc hacc
    cases p with
    | err => simp [fetch_loop, available_results]
    | ok results =>
      by_cases hemp : results.isEmpty
      · simp [fetch_loop, available_results, hemp]
      · rw [show fetch_loop now maxr (PageResult.ok results :: rest) acc
            = if maxr ≠ 0 ∧ maxr ≤ (acc ++ results.map (to_job_record now)).length
              then acc ++ results.map (to_job_record now)
              else fetch_loop now maxr rest (acc ++ results.map (to_job_record now))
            from by simp [fetch_loop, hemp]]
        rw [show available_results (PageResult.ok results :: rest)
            = results.length + available_results rest
            from by simp [available_results, hemp]]
        have hlen : (acc ++ results.map (to_job_record now)).length
            = acc.length + results.length := by simp
        by_cases hcap : maxr ≤ (acc ++ results.map (to_job_record now)).length
        · rw [if_pos ⟨Nat.pos_iff_ne_zero.mp hmaxr, hcap⟩]
          rw [Nat.min_eq_left hcap, Nat.min_eq_left (by omega)]
        · rw [if_neg (by tauto)]
          rw [ih _ (by omega), hlen, Nat.add_assoc]

/-- C6.  For every fetch with a positive result cap, the returned
sequence holds exactly `min(max_results, available)` records: pages
are appended whole and the loop breaks once the accumulated total
reaches the cap, after which the final slice truncates to exactly
`max_results` (a cap of 0 is Python-falsy and means unbounded, so it
is excluded). -/
theorem fetch_jobs_cap (now : String) (maxr : Nat) (pages : List PageResult)
    (hmaxr : 0 < maxr) :
    (fetch_jobs now maxr pages).length = min maxr (available_results pages) := by
  unfold fetch_jobs
  rw [if_pos (Nat.pos_iff_ne_zero.mp hmaxr)]
  rw [List.length_take]
  simpa using fetch_loop_length now maxr hmaxr pages [] (by simpa using hmaxr)

/-- C6 witness: the instance named by the spec — a cap of 10 against a
source holding 50 records yields exactly 10. -/
theorem fetch_jobs_cap_witness :
    0 < 10 ∧ (fetch_jobs "t" 10
        [PageResult.ok (List.replicate 50 raw_all_none)]).length
      = min 10 (available_results [PageResult.ok (List.replicate 50 raw_all_none)]) :=
  ⟨by decide, fetch_jobs_cap "t" 10 _ (by decide)⟩

/-- Helper for C7: the page loop over a run of successful nonempty
pages followed by a failed request returns the accumulated records of
the successful pages, provided the cap (if any) was not reached. -/
theorem fetch_loop_error (now : String) (maxr : Nat) (rest : List PageResult) :
    ∀ (good : List (List RawJob)) (acc : List JobRecord),
      (∀ p ∈ good, p ≠ []) →
      (maxr = 0 ∨ acc.length + good.flatten.length < maxr) →
      fetch_loop now maxr (good.map PageResult.ok ++ PageResult.err :: rest) acc
        = acc ++ good.flatten.map (to_job_record now) := by
  intro good
  induction good with
  | nil => intro acc _ _; simp [fetch_loop]
  | cons p gs ih =>
    intro acc hne hcap
    have hpne : p ≠ [] := hne p (by simp)
    have hemp : p.isEmpty = false := by
      rw [← Bool.not_eq_true, List.isEmpty_iff]; exact hpne
    have hlen : (acc ++ p.map (to_job_record now)).length
        = acc.length + p.length := by simp
    have hjoin : (p :: gs).flatten.length = p.length + gs.flatten.length := by
      simp
    rw [show fetch_loop now maxr
          ((p :: gs).map PageResult.ok ++ PageResult.err :: rest) acc
        = if maxr ≠ 0 ∧ maxr ≤ (acc ++ p.map (to_job_record now)).length
          then acc ++ p.map (to_job_record now)
          else fetch_loop now maxr (gs.map PageResult.ok ++ PageResult.err :: rest)
            (acc ++ p.map (to_job_record now))
        from by simp [fetch_loop, hemp]]
    rw [if_neg ?hno]
    case hno =>
      rcases hcap with h0 | hlt
      · rintro ⟨hne0, _⟩; exact hne0 h0
      · rintro ⟨_, hle⟩; omega
    rw [ih _ (fun q hq => hne q (by simp [hq])) ?hcap2]
    case hcap2 =>
      rcases hcap with h0 | hlt
      · exact Or.inl h0
      · right; omega
    simp

/-- C7.  When some page request fails after its own retries
(`PageResult.err`), `fetch_jobs` stops — the pages after the failure
are never consulted — and returns, rather than raises, exactly one
record per raw item accumulated from the pages fetched before the
failure, items with absent optional fields included (mapped by
`to_job_record` with `None` fields, never dropped), so the result
length equals the number of raw items seen. -/
theorem fetch_jobs_stops_on_error (now : String) (maxr : Nat)
    (good : List (List RawJob)) (rest : List PageResult)
    (hne : ∀ p ∈ good, p ≠ [])
    (hcap : maxr = 0 ∨ good.flatten.length < maxr) :
    fetch_jobs now maxr (good.map PageResult.ok ++ PageResult.err :: rest)
      = good.flatten.map (to_job_record now) ∧
    (fetch_jobs now maxr (good.map PageResult.ok ++ PageResult.err :: rest)).length
      = good.flatten.length := by
  have hloop := fetch_loop_error now maxr rest good [] hne (by simpa using hcap)
  have hres : fetch_jobs now maxr (good.map PageResult.ok ++ PageResult.err :: rest)
      = good.flatten.map (to_job_record now) := by
    unfold fetch_jobs
    rw [hloop]
    by_cases h0 : maxr = 0
    · rw [if_neg (by simp [h0])]
      simp
    · rw [if_pos h0]
      simp only [List.nil_append]
      refine List.take_of_length_le ?_
      rw [List.length_map]
      rcases hcap with hc | hc
      · exact absurd hc h0
      · exact Nat.le_of_lt hc
  exact ⟨hres, by rw [hres, List.length_map]⟩

/-- C7 witness: one successful page holding a single all-absent item,
then a failing page; the one record is returned. -/
theorem fetch_jobs_stops_on_error_witness :
    ((∀ p ∈ [[raw_all_none]], p ≠ ([] : List RawJob)) ∧
      ((10 : Nat) = 0 ∨
        ([[raw_all_none]] : List (List RawJob)).flatten.length < 10)) ∧
    (fetch_jobs "t" 10 ([[raw_all_none]].map PageResult.ok ++ PageResult.err :: [])
      = [[raw_all_none]].flatten.map (to_job_record "t") ∧
     (fetch_jobs "t" 10
        ([[raw_all_none]].map PageResult.ok ++ PageResult.err :: [])).length
      = ([[raw_all_none]] : List (List RawJob)).flatten.length) :=
  ⟨⟨by decide, by decide⟩,
    fetch_jobs_stops_on_error "t" 10 [[raw_all_none]] [] (by decide) (by decide)⟩

/-- Helper for C4/C5: a value returned by the response-cleaning block
is either the parse-error sentinel or a parse result containing every
required field. -/
theorem clean_response_ok (loads : String → Option PyVal) (t : String)
    (r : PyVal) (h : clean_response loads t = .ok r) :
    r = zero_result "Failed to parse LLM response" ∨
    all_fields_in required_fields r = .ok true := by
  simp only [clean_response] at h
  split at h
  · split at h
    · exact Or.inl (Except.ok.inj h).symm
    · split at h
      · exact absurd h (by simp)
      · exact Or.inr ((Except.ok.inj h) ▸ (by assumption))
      · exact absurd h (by simp)
  · exact absurd h (by simp)

/-- Helper: a rate-limited backend exception with retries left moves
the loop to the next `retry_count`. -/
theorem match_go_raise_retry (loads : String → Option PyVal)
    (gen : Nat → GenOutcome) (rc m : Nat) (e : String)
    (hg : gen rc = .raise e) (h429 : py_in_str "429" e = true)
    (hlt : rc < ResumeMatchEngine.max_retries - 1) :
    match_go loads gen rc (m + 1) = match_go loads gen (rc + 1) m := by
  simp only [match_go, hg, h429, if_true, hlt]

/-- Helper: a non-rate-limit backend exception returns its text in a
zero-score dictionary at once. -/
theorem match_go_raise_stop (loads : String → Option PyVal)
    (gen : Nat → GenOutcome) (rc m : Nat) (e : String)
    (hg : gen rc = .raise e) (h429 : py_in_str "429" e = false) :
    match_go loads gen rc (m + 1) = zero_result e := by
  simp only [match_go, hg, h429]
  rfl

/-- Helper: a rate-limited backend exception on the last attempt
returns its text in a zero-score dictionary. -/
theorem match_go_raise_last (loads : String → Option PyVal)
    (gen : Nat → GenOutcome) (rc m : Nat) (e : String)
    (hg : gen rc = .raise e) (h429 : py_in_str "429" e = true)
    (hge : ¬ rc < ResumeMatchEngine.max_retries - 1) :
    match_go loads gen rc (m + 1) = zero_result e := by
  simp only [match_go, hg, h429, if_true]
  rw [if_neg hge]

/-- Helper for C5: at every loop state, the result is a zero-score
dictionary or a parse result holding all required fields. -/
theorem match_go_shape (loads : String → Option PyVal)
    (gen : Nat → GenOutcome) :
    ∀ (remaining rc : Nat),
      (∃ e, match_go loads gen rc remaining = zero_result e) ∨
      all_fields_in required_fields (match_go loads gen rc remaining)
        = .ok true := by
  intro remaining
  induction remaining with
  | zero => intro rc; exact Or.inl ⟨_, rfl⟩
  | succ m ih =>
    intro rc
    cases hg : gen rc with
    | raise e =>
      by_cases h429 : py_in_str "429" e
      · by_cases hlt : rc < ResumeMatchEngine.max_retries - 1
        · rw [match_go_raise_retry loads gen rc m e hg h429 hlt]
          exact ih (rc + 1)
        · rw [match_go_raise_last loads gen rc m e hg h429 hlt]
          exact Or.inl ⟨e, rfl⟩
      · rw [match_go_raise_stop loads gen rc m e hg (by simpa using h429)]
        exact Or.inl ⟨e, rfl⟩
    | text t =>
      cases hc : clean_response loads t with
      | ok r =>
        rw [show match_go loads gen rc (m + 1) = r
          from by simp only [match_go, hg, hc]]
        rcases clean_response_ok loads t r hc with h | h
        · exact Or.inl ⟨_, h⟩
        · exact Or.inr h
      | error e =>
        by_cases h429 : py_in_str "429" e
        · by_cases hlt : rc < ResumeMatchEngine.max_retries - 1
          · rw [show match_go loads gen rc (m + 1) = match_go loads gen (rc + 1) m
              from by simp only [match_go, hg, hc, h429, if_true, hlt]]
            exact ih (rc + 1)
          · rw [show match_go loads gen rc (m + 1) = zero_result e
              from by simp only [match_go, hg, hc, h429, if_true]; rw [if_neg hlt]]
            exact Or.inl ⟨e, rfl⟩
        · rw [show match_go loads gen rc (m + 1) = zero_result e
            from by simp only [match_go, hg, hc]; rw [if_neg h429]]
          exact Or.inl ⟨e, rfl⟩

/-- C4, counterexample.  The body `"hello"` holds no balanced object
literal, yet the result is not the claimed sentinel: the
`ValueError("No JSON object found in response")` raised by the
cleaning block is not a `json.JSONDecodeError`, so the inner `except`
does not catch it; the outer handler wraps its text instead, and the
error string is `"No JSON object found in response"`, not
`"Failed to parse LLM response"`. -/
theorem match_job_no_json_cx :
    py_find "hello" '{' = -1 ∧
    match_job_to_resume (fun _ => none) (fun _ => .text "hello")
      = zero_result "No JSON object found in response" ∧
    zero_result "No JSON object found in response"
      ≠ zero_result "Failed to parse LLM response" := by
  refine ⟨rfl, rfl, ?_⟩
  intro h
  simp [zero_result] at h

/-- C4, amended.  A response body with no `'{'` or no `'}'` yields the
zero-score sentinel carrying `"No JSON object found in response"`
(via the outer exception handler); only when both braces occur and the
spanned substring fails to parse does the call return the sentinel
carrying `"Failed to parse LLM response"`. -/
theorem match_job_fallback (loads : String → Option PyVal)
    (gen : Nat → GenOutcome) (t : String) (hgen : gen 0 = .text t) :
    ((py_find t '{' = -1 ∨ py_rfind t '}' + 1 = 0) →
      match_job_to_resume loads gen
        = zero_result "No JSON object found in response") ∧
    ((py_find t '{' ≠ -1 ∧ py_rfind t '}' + 1 ≠ 0) →
      loads (py_slice t (py_find t '{').toNat (py_rfind t '}' + 1).toNat)
        = none →
      match_job_to_resume loads gen
        = zero_result "Failed to parse LLM response") := by
  constructor
  · intro hno
    have hcond : ¬ (py_find t '{' ≠ -1 ∧ py_rfind t '}' + 1 ≠ 0) := by
      rcases hno with h | h
      · rintro ⟨h1, _⟩; exact h1 h
      · rintro ⟨_, h2⟩; exact h2 h
    have hclean : clean_response loads t
        = .error "No JSON object found in response" := by
      simp only [clean_response]
      rw [if_neg hcond]
    show match_go loads gen 0 ResumeMatchEngine.max_retries = _
    rw [show ResumeMatchEngine.max_retries = 4 + 1 from rfl]
    simp only [match_go, hgen, hclean]
    rfl
  · intro hs hload
    have hclean : clean_response loads t
        = .ok (zero_result "Failed to parse LLM response") := by
      simp only [clean_response]
      rw [if_pos hs, hload]
    show match_go loads gen 0 ResumeMatchEngine.max_retries = _
    rw [show ResumeMatchEngine.max_retries = 4 + 1 from rfl]
    simp only [match_go, hgen, hclean]

/-- C4 witness: a body consisting of a closing brace followed by an
opening brace has both braces, the spanned substring is empty and
unparseable, and the parse-error sentinel comes back. -/
theorem match_job_fallback_witness :
    ((fun _ : Nat => GenOutcome.text "\x7d\x7b") 0 = GenOutcome.text "\x7d\x7b" ∧
      (py_find "\x7d\x7b" '{' ≠ -1 ∧ py_rfind "\x7d\x7b" '}' + 1 ≠ 0) ∧
      (fun _ : String => (none : Option PyVal))
        (py_slice "\x7d\x7b" (py_find "\x7d\x7b" '{').toNat
          (py_rfind "\x7d\x7b" '}' + 1).toNat) = none) ∧
    match_job_to_resume (fun _ => none) (fun _ => .text "\x7d\x7b")
      = zero_result "Failed to parse LLM response" :=
  ⟨⟨rfl, by decide, rfl⟩,
    (match_job_fallback (fun _ => none) (fun _ => .text "\x7d\x7b") "\x7d\x7b" rfl).2
      (by decide) rfl⟩

/-- C5.  For every behavior of the inference backend and of
`json.loads`, `match_job_to_resume` returns a dictionary — every
outcome is either a zero-score sentinel (score 0, empty skill lists,
an error string) or a parse result holding all required fields; in
particular a non-rate-limit exception on the first call returns its
text in a sentinel at once, and five consecutive rate-limit
exceptions exhaust the retries and return the last text in a
sentinel.  Nothing is raised to the caller: the embedding is a total
function whose every branch mirrors a `return` of the source. -/
theorem match_job_never_raises (loads : String → Option PyVal)
    (gen : Nat → GenOutcome) :
    ((∃ e, match_job_to_resume loads gen = zero_result e) ∨
      all_fields_in required_fields (match_job_to_resume loads gen)
        = .ok true) ∧
    (∀ e, gen 0 = .raise e → py_in_str "429" e = false →
      match_job_to_resume loads gen = zero_result e) ∧
    ((∀ rc, rc < ResumeMatchEngine.max_retries →
        ∃ e, gen rc = .raise e ∧ py_in_str "429" e = true) →
      ∃ e, gen 4 = .raise e ∧ match_job_to_resume loads gen = zero_result e) := by
  refine ⟨match_go_shape loads gen ResumeMatchEngine.max_retries 0, ?_, ?_⟩
  · intro e hg h429
    show match_go loads gen 0 ResumeMatchEngine.max_retries = _
    rw [show ResumeMatchEngine.max_retries = 4 + 1 from rfl]
    exact match_go_raise_stop loads gen 0 4 e hg h429
  · intro hall
    obtain ⟨e0, hg0, h0⟩ := hall 0 (by decide)
    obtain ⟨e1, hg1, h1⟩ := hall 1 (by decide)
    obtain ⟨e2, hg2, h2⟩ := hall 2 (by decide)
    obtain ⟨e3, hg3, h3⟩ := hall 3 (by decide)
    obtain ⟨e4, hg4, h4⟩ := hall 4 (by decide)
    refine ⟨e4, hg4, ?_⟩
    show match_go loads gen 0 ResumeMatchEngine.max_retries = _
    rw [show ResumeMatchEngine.max_retries = 4 + 1 from rfl]
    rw [match_go_raise_retry loads gen 0 4 e0 hg0 h0 (by decide)]
    show match_go loads gen 1 (3 + 1) = zero_result e4
    rw [match_go_raise_retry loads gen 1 3 e1 hg1 h1 (by decide)]
    show match_go loads gen 2 (2 + 1) = zero_result e4
    rw [match_go_raise_retry loads gen 2 2 e2 hg2 h2 (by decide)]
    show match_go loads gen 3 (1 + 1) = zero_result e4
    rw [match_go_raise_retry loads gen 3 1 e3 hg3 h3 (by decide)]
    show match_go loads gen 4 (0 + 1) = zero_result e4
    exact match_go_raise_last loads gen 4 0 e4 hg4 h4 (by decide)

/-- C5 witness: a backend that raises a non-rate-limit error on the
first call; the text comes back in a zero-score sentinel. -/
theorem match_job_never_raises_witness :
    ((fun _ : Nat => GenOutcome.raise "boom") 0 = GenOutcome.raise "boom" ∧
      py_in_str "429" "boom" = false) ∧
    match_job_to_resume (fun _ => none) (fun _ => .raise "boom")
      = zero_result "boom" :=
  ⟨⟨rfl, by decide⟩,
    (match_job_never_raises (fun _ => none) (fun _ => .raise "boom")).2.1
      "boom" rfl (by decide)⟩

/-- C9.  For `retry_count` 0 to 4 with `base_delay = 2`, the computed
backoff delay before jitter equals `min(300, 2 * 2 ^ retry_count)`,
the sequence 2, 4, 8, 16, 32; the jitter is drawn by
`random.uniform(0, 0.1 * delay)`, i.e. from `[0, delay / 10]`, so the
total lies between the delay and 1.1 times the delay. -/
theorem exponential_backoff_values (retry_count : Nat) (jitter : ℚ)
    (hrc : retry_count ≤ 4) (hj0 : 0 ≤ jitter)
    (hj1 : jitter ≤ backoff_jitter_max retry_count) :
    backoff_delay retry_count = 2 * 2 ^ retry_count ∧
    [backoff_delay 0, backoff_delay 1, backoff_delay 2, backoff_delay 3,
      backoff_delay 4] = [2, 4, 8, 16, 32] ∧
    backoff_jitter_max retry_count = (backoff_delay retry_count : ℚ) / 10 ∧
    (backoff_delay retry_count : ℚ) ≤ exponential_backoff retry_count jitter ∧
    exponential_backoff retry_count jitter
      ≤ (backoff_delay retry_count : ℚ) * (11 / 10) := by
  refine ⟨?_, by decide, rfl, ?_, ?_⟩
  · interval_cases retry_count <;> decide
  · unfold exponential_backoff
    linarith
  · unfold exponential_backoff
    unfold backoff_jitter_max at hj1
    linarith

/-- C9 witness: `retry_count = 3` with a jitter of 1 second (within
the 10 percent band of the 16 second delay). -/
theorem exponential_backoff_values_witness :
    ((3 : Nat) ≤ 4 ∧ (0 : ℚ) ≤ 1 ∧ (1 : ℚ) ≤ backoff_jitter_max 3) ∧
    (backoff_delay 3 = 2 * 2 ^ 3 ∧
     [backoff_delay 0, backoff_delay 1, backoff_delay 2, backoff_delay 3,
       backoff_delay 4] = [2, 4, 8, 16, 32] ∧
     backoff_jitter_max 3 = (backoff_delay 3 : ℚ) / 10 ∧
     (backoff_delay 3 : ℚ) ≤ exponential_backoff 3 1 ∧
     exponential_backoff 3 1 ≤ (backoff_delay 3 : ℚ) * (11 / 10)) :=
  ⟨⟨by decide, by norm_num,
      by norm_num [backoff_jitter_max, backoff_delay, base_delay]⟩,
    exponential_backoff_values 3 1 (by decide) (by norm_num)
      (by norm_num [backoff_jitter_max, backoff_delay, base_delay])⟩

/-- C8, counterexample.  In a run whose single scoring call returns
normally, the event trace is the scoring call followed by the 1-second
sleep: no 1-second delay precedes the (first) scoring call, refuting
the claim that a fixed 1-second delay occurs before each scoring
call. -/
theorem scoring_no_delay_before_first_cx :
    ¬ (∀ i j, (scoring_trace (fun _ => .ok) 1)[i]? = some (.score j) →
        ∃ k, i = k + 1 ∧
          (scoring_trace (fun _ => .ok) 1)[k]? = some .sleep_one) := by
  intro h
  obtain ⟨k, hk, _⟩ := h 0 0 rfl
  exact Nat.succ_ne_zero k hk.symm

/-- C8, amended.  The 1-second delay follows rather than precedes each
scoring call, and only on normal return: the trace of every run
starts directly with the first scoring call; when every call returns
normally the trace is exactly call-then-sleep for each record; a call
that raises a non-rate-limit error is followed by no sleep at all;
one that raises a rate-limit error is followed by the 60-second wait
and the single retried call. -/
theorem scoring_trace_policy :
    (∀ (f : Nat → ScoreOutcome) (n : Nat), 0 < n →
      (scoring_trace f n).head? = some (.score 0)) ∧
    (∀ (f : Nat → ScoreOutcome) (n : Nat), (∀ j, j < n → f j = .ok) →
      scoring_trace f n
        = (List.range n).flatMap (fun j => [.score j, .sleep_one])) ∧
    (∀ (f : Nat → ScoreOutcome) (j : Nat) (e : String),
      f j = .raise e → py_in_str "429" e = false →
      scoring_trace f (j + 1) = scoring_trace f j ++ [.score j]) ∧
    (∀ (f : Nat → ScoreOutcome) (j : Nat) (e : String),
      f j = .raise e → py_in_str "429" e = true →
      scoring_trace f (j + 1)
        = scoring_trace f j ++ [.score j, .sleep_sixty, .score_retry j]) := by
  refine ⟨?_, ?_, ?_, ?_⟩
  · intro f n hn
    induction n with
    | zero => omega
    | succ m ih =>
      cases m with
      | zero =>
        show (scoring_trace f 0 ++ score_block f 0).head? = _
        cases hf : f 0 <;> simp [scoring_trace, score_block, hf]
      | succ k =>
        show (scoring_trace f (k + 1) ++ score_block f (k + 1)).head? = _
        rw [List.head?_append, ih (by omega)]
        rfl
  · intro f n
    induction n with
    | zero => intro _; rfl
    | succ m ih =>
      intro hok
      show scoring_trace f m ++ score_block f m = _
      rw [ih (fun j hj => hok j (by omega)), List.range_succ,
        List.flatMap_append]
      simp [score_block, hok m (by omega)]
  · intro f j e hf h429
    show scoring_trace f j ++ score_block f j = _
    simp [score_block, hf, h429]
  · intro f j e hf h429
    show scoring_trace f j ++ score_block f j = _
    simp [score_block, hf, h429]

/-- C8 witness: two normally returning calls; the trace opens with the
first scoring call and each call is followed by its 1-second sleep. -/
theorem scoring_trace_policy_witness :
    ((0 : Nat) < 2 ∧ (∀ j, j < 2 → (fun _ : Nat => ScoreOutcome.ok) j = .ok)) ∧
    ((scoring_trace (fun _ => ScoreOutcome.ok) 2).head? = some (.score 0) ∧
      scoring_trace (fun _ => ScoreOutcome.ok) 2
        = (List.range 2).flatMap (fun j => [.score j, .sleep_one])) :=
  ⟨⟨by decide, fun j _ => rfl⟩,
    ⟨scoring_trace_policy.1 (fun _ => .ok) 2 (by decide),
      scoring_trace_policy.2.1 (fun _ => .ok) 2 (fun j _ => rfl)⟩⟩
